import Mathlib

/-!
Verification development for `castoredc_api/study/castor_objects/castor_data_point.py`.

The module turns raw Castor EDC export strings into analysable values.  We give a
shallow embedding of the interpretation logic: the duplicated free functions
(`interpret`, `interpret_numeric`, ...) are embedded at top level, and the method
versions (`_CastorDataPoint__interpret`, ...) in the `CastorDataPoint` namespace,
each translated separately from its own source lines.

Modelling conventions (stated once here):
* Python strings are Lean `String`s; the raw value of a data point is a string.
* Python library calls (`float`, `int`, `str.split`, `json.loads`,
  `datetime.strptime`, `Period.strftime`) are embedded as executable Lean
  functions modelling the fragment of their behaviour exercised by the module:
  decimal literals for `float`/`int` (special values such as `inf`/`nan`
  and underscore separators are outside the modelled fragment and treated as
  parse failures), the three concrete `strptime` formats appearing in the
  source, and the `%d %m %y %Y %H %M %S %%` strftime directives (other
  directives are copied verbatim).
* Exceptions are modelled by `Except PyError`; `PyError` records the identity
  of the raise site / exception class, not the message text.
-/

/-- Exception identities raised (directly or via libraries) by the module. -/
inductive PyError where
  | valueError
  | typeError
  | keyError
  | indexError
  | attrError
  | nameError
  | jsonError
  | optiongroupNotFound
  | keyMappingFailed
deriving DecidableEq, Repr

/-- Does `pat` occur at the start of the character list? -/
def startsWithL : List Char → List Char → Bool
  | [], _ => true
  | _ :: _, [] => false
  | p :: ps, s :: ss => p == s && startsWithL ps ss

/-- Substring occurrence on character lists. -/
def containsL (pat : List Char) : List Char → Bool
  | [] => pat.isEmpty
  | s :: ss => startsWithL pat (s :: ss) || containsL pat ss

/-- Python's `pat in s` substring test on strings. -/
def pyIn (pat s : String) : Bool := containsL pat.data s.data

/-- Split a character list on every occurrence of `c` (Python `str.split(sep)`:
no empty-part removal, `[] ↦ [[]]`). -/
def splitCharL (c : Char) : List Char → List (List Char)
  | [] => [[]]
  | x :: xs =>
    match splitCharL c xs with
    | [] => [[]]
    | h :: t => if x == c then [] :: h :: t else (x :: h) :: t

/-- Python `s.split(c)` for a one-character separator. -/
def pySplit (c : Char) (s : String) : List String :=
  (splitCharL c s.data).map String.mk

/-- Python `sep.join(parts)`. -/
def joinSep (sep : String) : List String → String
  | [] => ""
  | [x] => x
  | x :: y :: xs => x ++ sep ++ joinSep sep (y :: xs)

/-- Python `s.strip()`. -/
def pyStrip (s : String) : String :=
  String.mk (((s.data.dropWhile Char.isWhitespace).reverse.dropWhile Char.isWhitespace).reverse)

/-- Numeric value of a digit list (assumed to contain digits only). -/
def digitsToNat (cs : List Char) : Nat := cs.foldl (fun a c => a * 10 + (c.toNat - 48)) 0

/-- Nonempty all-digit character list. -/
def isDigits1 (cs : List Char) : Bool := !cs.isEmpty && cs.all Char.isDigit

/-- Python `int(s)` on the modelled fragment: optional surrounding whitespace,
optional sign, decimal digits; anything else raises `ValueError`. -/
def pyInt (s : String) : Except PyError Int :=
  let cs := ((s.data.dropWhile Char.isWhitespace).reverse.dropWhile Char.isWhitespace).reverse
  match cs with
  | '+' :: rest => if isDigits1 rest then .ok (digitsToNat rest) else .error .valueError
  | '-' :: rest => if isDigits1 rest then .ok (-(digitsToNat rest : Int)) else .error .valueError
  | rest => if isDigits1 rest then .ok (digitsToNat rest) else .error .valueError

/-- Unsigned decimal mantissa `digits[.digits]`, not both sides empty, as a
numerator/denominator pair. -/
def parseMantissaND (cs : List Char) : Option (Nat × Nat) :=
  match splitCharL '.' cs with
  | [i] => if isDigits1 i then some (digitsToNat i, 1) else none
  | [i, f] =>
    if i.all Char.isDigit && f.all Char.isDigit && !(i.isEmpty && f.isEmpty) then
      some (digitsToNat (i ++ f), 10 ^ f.length)
    else none
  | _ => none

/-- Signed decimal exponent. -/
def parseExp (cs : List Char) : Option Int :=
  match cs with
  | '+' :: r => if isDigits1 r then some (digitsToNat r) else none
  | '-' :: r => if isDigits1 r then some (-(digitsToNat r : Int)) else none
  | r => if isDigits1 r then some (digitsToNat r) else none

/-- Unsigned float literal `mantissa[(e|E)exp]` as a numerator/denominator
pair. -/
def parseUFloatND (cs : List Char) : Option (Nat × Nat) :=
  let cs := cs.map (fun c => if c == 'E' then 'e' else c)
  match splitCharL 'e' cs with
  | [m] => parseMantissaND m
  | [m, e] =>
    match parseMantissaND m, parseExp e with
    | some nd, some ex =>
      if 0 ≤ ex then some (nd.1 * 10 ^ ex.toNat, nd.2)
      else some (nd.1, nd.2 * 10 ^ (-ex).toNat)
    | _, _ => none
  | _ => none

/-- Python `float(s)` on the modelled fragment (decimal literals, optional
surrounding whitespace and sign); exact values are kept as rationals. -/
def pyFloat (s : String) : Except PyError Rat :=
  let cs := ((s.data.dropWhile Char.isWhitespace).reverse.dropWhile Char.isWhitespace).reverse
  match cs with
  | '+' :: r =>
    match parseUFloatND r with
    | some nd => .ok (mkRat nd.1 nd.2)
    | none => .error .valueError
  | '-' :: r =>
    match parseUFloatND r with
    | some nd => .ok (mkRat (-(nd.1 : Int)) nd.2)
    | none => .error .valueError
  | r =>
    match parseUFloatND r with
    | some nd => .ok (mkRat nd.1 nd.2)
    | none => .error .valueError

/-- Broken-down date-time as carried by `datetime` / `pandas.Period`. -/
structure PDateTime where
  year : Nat
  month : Nat
  day : Nat
  hour : Nat
  minute : Nat
  second : Nat
deriving DecidableEq, Repr

def isLeap (y : Nat) : Bool := (y % 4 == 0 && y % 100 != 0) || y % 400 == 0

def daysInMonth (y m : Nat) : Nat :=
  if m == 2 then (if isLeap y then 29 else 28)
  else if [4, 6, 9, 11].contains m then 30 else 31

/-- Parse a 1–2 digit numeric field constrained to `[lo, hi]` (the shape of the
regexes CPython's `_strptime` uses for `%d`, `%m`, `%H`, `%M`). -/
def parseBounded (cs : List Char) (lo hi : Nat) : Option Nat :=
  if isDigits1 cs && decide (cs.length ≤ 2) then
    let v := digitsToNat cs
    if lo ≤ v && v ≤ hi then some v else none
  else none

/-- Models `datetime.strptime(s, "%d-%m-%Y")`: day and month 1–2 digits, year exactly
4 digits, calendar-validated; failure raises `ValueError`. -/
def strptime_dmY (s : String) : Except PyError PDateTime :=
  match splitCharL '-' s.data with
  | [d, m, y] =>
    match parseBounded d 1 31, parseBounded m 1 12,
        (if isDigits1 y && decide (y.length = 4) then some (digitsToNat y) else none) with
    | some dv, some mv, some yv =>
      if 1 ≤ yv && dv ≤ daysInMonth yv mv then .ok ⟨yv, mv, dv, 0, 0, 0⟩
      else .error .valueError
    | _, _, _ => .error .valueError
  | _ => .error .valueError

/-- Models `datetime.strptime(s, "%H:%M")`. -/
def strptime_HM (s : String) : Except PyError (Nat × Nat) :=
  match splitCharL ':' s.data with
  | [h, m] =>
    match parseBounded h 0 23, parseBounded m 0 59 with
    | some hv, some mv => .ok (hv, mv)
    | _, _ => .error .valueError
  | _ => .error .valueError

/-- Models `datetime.strptime(s, "%d-%m-%Y;%H:%M")`. -/
def strptime_dmY_HM (s : String) : Except PyError PDateTime :=
  match splitCharL ';' s.data with
  | [dpart, tpart] =>
    match strptime_dmY (String.mk dpart), strptime_HM (String.mk tpart) with
    | .ok dt, .ok hm => .ok { dt with hour := hm.1, minute := hm.2 }
    | _, _ => .error .valueError
  | _ => .error .valueError

/-- Zero-pad a natural number to width `w`. -/
def natPad (w n : Nat) : String :=
  let s := toString n
  String.mk (List.replicate (w - s.length) '0') ++ s

/-- One strftime directive of the modelled fragment. -/
def fmtDirective (dt : PDateTime) (c : Char) : String :=
  if c == 'Y' then natPad 4 dt.year
  else if c == 'y' then natPad 2 (dt.year % 100)
  else if c == 'm' then natPad 2 dt.month
  else if c == 'd' then natPad 2 dt.day
  else if c == 'H' then natPad 2 dt.hour
  else if c == 'M' then natPad 2 dt.minute
  else if c == 'S' then natPad 2 dt.second
  else if c == '%' then "%"
  else String.mk ['%', c]

def strftimeAux (dt : PDateTime) : List Char → List Char
  | [] => []
  | c :: rest =>
    if c == '%' then
      match rest with
      | [] => [c]
      | c2 :: rest2 => (fmtDirective dt c2).data ++ strftimeAux dt rest2
    else c :: strftimeAux dt rest

/-- Models `strftime` on the modelled directive fragment, as used by
`datetime.time.strftime` and `pandas.Period.strftime` in the module. -/
def strftime (dt : PDateTime) (fmt : String) : String := String.mk (strftimeAux dt fmt.data)

/-- JSON values as produced by `json.loads`. -/
inductive JValue where
  | null
  | bool (b : Bool)
  | num (q : Rat)
  | str (s : String)
  | arr (elems : List JValue)
  | obj (fields : List (String × JValue))

/-- Scalar interpreted values (Python `np.nan`, `int`, `float`, `str`). -/
inductive BVal where
  | nan
  | int (n : Int)
  | float (q : Rat)
  | str (s : String)
deriving DecidableEq, Repr

/-- Result of one interpretation call: a scalar, the two-element numberdate
list, or (grid cells of string-typed columns holding a non-string JSON
payload) the payload unchanged. -/
inductive CellVal where
  | base (b : BVal)
  | pair (x y : BVal)
  | jraw (j : JValue)

/-- Result of the method dispatch: a cell value or the labelled grid table
(`pandas.DataFrame` of interpreted columns). -/
inductive Value where
  | c (v : CellVal)
  | table (cols : List (List CellVal)) (colNames rowNames : List String)

/-- An entry of an option group: `{"value": ..., "name": ...}`. -/
structure CastorOption where
  value : String
  name : String
deriving DecidableEq, Repr

/-- An option group as returned by `CastorStudy.get_single_optiongroup`. -/
structure OptionGroup where
  options : List CastorOption
deriving DecidableEq, Repr

/-- The three strftime format strings of `study.configuration`. -/
structure Configuration where
  date : String
  time : String
  datetime : String
deriving DecidableEq, Repr

/-- The slice of `CastorStudy` the interpreter reads: the format configuration,
the option-group resolver and the `pass_keyerrors` flag. -/
structure Study where
  configuration : Configuration
  get_single_optiongroup : String → Option OptionGroup
  pass_keyerrors : Bool

/-- The slice of `CastorField` the interpreter reads.  `field_option_group` is
`none` when the field (for example a synthetic grid-cell descriptor built from
a `null` entry of the template's `optionLists`) has no option group; a lookup
through `none` behaves like `get_single_optiongroup` returning `None`. -/
structure CastorField where
  field_name : String
  field_type : String
  field_option_group : Option String
  field_summary_template : String

/-- The value→name dict `{item["value"]: item["name"] for item in options}`;
later entries overwrite earlier ones, lookup returns `none` on a missing key. -/
def dictGet (opts : List CastorOption) (k : String) : Option String :=
  opts.foldl (fun acc it => if it.value == k then some it.name else acc) none

/-- Left-to-right effectful map over a list in `Except` (the evaluation order
of a Python list comprehension): stops at the first raised error. -/
def mapE (f : α → Except PyError β) : List α → Except PyError (List β)
  | [] => .ok []
  | x :: xs =>
    match f x with
    | .error e => .error e
    | .ok y =>
      match mapE f xs with
      | .error e => .error e
      | .ok ys => .ok (y :: ys)

/-! ## The standalone free functions (source lines 453–746) -/

/-- Free function `interpret_time` (source lines 486–507). -/
def interpret_time (time_format : String) (raw_value : String) : Except PyError String :=
  if raw_value == "" then .ok ""
  else if pyIn "Missing" raw_value then
    if pyIn "measurement failed" raw_value then .ok "-95"
    else if pyIn "not applicable" raw_value then .ok "-96"
    else if pyIn "not asked" raw_value then .ok "-97"
    else if pyIn "asked but unknown" raw_value then .ok "-98"
    else if pyIn "not done" raw_value then .ok "-99"
    else .ok "Missing value not recognized"
  else
    match strptime_HM raw_value with
    | .ok hm => .ok (strftime ⟨1900, 1, 1, hm.1, hm.2, 0⟩ time_format)
    | .error e => .error e

/-- Free function `interpret_datetime` (source lines 509–546).  The fallback
catches the `ValueError` of the first parse (the only error it can raise). -/
def interpret_datetime (datetime_format : String) (raw_value : String) : Except PyError BVal :=
  if raw_value == "" then .ok .nan
  else if pyIn "Missing" raw_value then
    if pyIn "measurement failed" raw_value then .ok (.str (strftime ⟨2995, 1, 1, 0, 0, 0⟩ datetime_format))
    else if pyIn "not applicable" raw_value then .ok (.str (strftime ⟨2996, 1, 1, 0, 0, 0⟩ datetime_format))
    else if pyIn "not asked" raw_value then .ok (.str (strftime ⟨2997, 1, 1, 0, 0, 0⟩ datetime_format))
    else if pyIn "asked but unknown" raw_value then .ok (.str (strftime ⟨2998, 1, 1, 0, 0, 0⟩ datetime_format))
    else if pyIn "not done" raw_value then .ok (.str (strftime ⟨2999, 1, 1, 0, 0, 0⟩ datetime_format))
    else .ok (.str "Missing value not recognized")
  else
    match strptime_dmY_HM raw_value with
    | .ok dt => .ok (.str (strftime dt datetime_format))
    | .error _ =>
      match strptime_dmY raw_value with
      | .ok dt => .ok (.str (strftime dt datetime_format))
      | .error e => .error e

/-- Free function `interpret_date` (source lines 548–585); note the fallback
reformats with the literal `"%d-%m-%Y;%H:%M"`, not with `date_format`. -/
def interpret_date (date_format : String) (raw_value : String) : Except PyError BVal :=
  if raw_value == "" then .ok .nan
  else if pyIn "Missing" raw_value then
    if pyIn "measurement failed" raw_value then .ok (.str (strftime ⟨2995, 1, 1, 0, 0, 0⟩ date_format))
    else if pyIn "not applicable" raw_value then .ok (.str (strftime ⟨2996, 1, 1, 0, 0, 0⟩ date_format))
    else if pyIn "not asked" raw_value then .ok (.str (strftime ⟨2997, 1, 1, 0, 0, 0⟩ date_format))
    else if pyIn "asked but unknown" raw_value then .ok (.str (strftime ⟨2998, 1, 1, 0, 0, 0⟩ date_format))
    else if pyIn "not done" raw_value then .ok (.str (strftime ⟨2999, 1, 1, 0, 0, 0⟩ date_format))
    else .ok (.str "Missing value not recognized")
  else
    match strptime_dmY raw_value with
    | .ok dt => .ok (.str (strftime dt date_format))
    | .error _ =>
      match strptime_dmY_HM raw_value with
      | .ok dt => .ok (.str (strftime dt "%d-%m-%Y;%H:%M"))
      | .error e => .error e

/-- Free function `interpret_optiongroup_helper` (source lines 608–640). -/
def interpret_optiongroup_helper (study : Study) (instance_of : CastorField)
    (raw_value : String) : Except PyError String :=
  let optiongroup := instance_of.field_option_group
  match (match optiongroup with
         | some g => study.get_single_optiongroup g
         | none => none) with
  | none => .error .optiongroupNotFound
  | some study_optiongroup =>
    let options := study_optiongroup.options
    let value_list := pySplit ';' raw_value
    let new_values : Except PyError (List String) :=
      if value_list == [""] then .ok [""]
      else if study.pass_keyerrors then
        .ok (value_list.map (fun v => (dictGet options v).getD v))
      else
        mapE (fun v =>
          match dictGet options v with
          | some n => .ok n
          | none => .error .keyMappingFailed) value_list
    match new_values with
    | .ok vs => .ok (joinSep "|" vs)
    | .error e => .error e

/-- Free function `interpret_optiongroup` (source lines 587–606). -/
def interpret_optiongroup (study : Study) (instance_of : CastorField)
    (raw_value : String) : Except PyError String :=
  if raw_value == "" then .ok ""
  else if pyIn "Missing" raw_value then
    if pyIn "measurement failed" raw_value then .ok "measurement failed"
    else if pyIn "not applicable" raw_value then .ok "not applicable"
    else if pyIn "not asked" raw_value then .ok "not asked"
    else if pyIn "asked but unknown" raw_value then .ok "asked but unknown"
    else if pyIn "not done" raw_value then .ok "not done"
    else .ok "Missing value not recognized"
  else interpret_optiongroup_helper study instance_of raw_value

/-- Free function `interpret_numeric` (source lines 642–661). -/
def interpret_numeric (raw_value : String) : Except PyError BVal :=
  if raw_value == "" then .ok .nan
  else if pyIn "Missing" raw_value then
    if pyIn "measurement failed" raw_value then .ok (.int (-95))
    else if pyIn "not applicable" raw_value then .ok (.int (-96))
    else if pyIn "not asked" raw_value then .ok (.int (-97))
    else if pyIn "asked but unknown" raw_value then .ok (.int (-98))
    else if pyIn "not done" raw_value then .ok (.int (-99))
    else .ok (.str "Missing value not recognized")
  else
    match pyFloat raw_value with
    | .ok q => .ok (.float q)
    | .error e => .error e

/-- Free function `interpret_year` (source lines 663–682). -/
def interpret_year (raw_value : String) : Except PyError BVal :=
  if raw_value == "" then .ok .nan
  else if pyIn "Missing" raw_value then
    if pyIn "measurement failed" raw_value then .ok (.int (-95))
    else if pyIn "not applicable" raw_value then .ok (.int (-96))
    else if pyIn "not asked" raw_value then .ok (.int (-97))
    else if pyIn "asked but unknown" raw_value then .ok (.int (-98))
    else if pyIn "not done" raw_value then .ok (.int (-99))
    else .ok (.str "Missing value not recognized")
  else
    match pyInt raw_value with
    | .ok n => .ok (.int n)
    | .error e => .error e

/-- Free function `interpret_numberdate` (source lines 684–746).  In the
real-value branch the source replaces an empty sub-part by `np.nan`; for the
number this makes `float(np.nan)` return NaN, but for the date it makes
`datetime.strptime(np.nan, "%d-%m-%Y")` raise a `TypeError`. -/
def interpret_numberdate (date_format : String) (raw_value : String) :
    Except PyError (BVal × BVal) :=
  if raw_value == "" then .ok (.nan, .nan)
  else if pyIn "Missing" raw_value then
    if pyIn "measurement failed" raw_value then
      .ok (.int (-95), .str (strftime ⟨2995, 1, 1, 0, 0, 0⟩ date_format))
    else if pyIn "not applicable" raw_value then
      .ok (.int (-96), .str (strftime ⟨2996, 1, 1, 0, 0, 0⟩ date_format))
    else if pyIn "not asked" raw_value then
      .ok (.int (-97), .str (strftime ⟨2997, 1, 1, 0, 0, 0⟩ date_format))
    else if pyIn "asked but unknown" raw_value then
      .ok (.int (-98), .str (strftime ⟨2998, 1, 1, 0, 0, 0⟩ date_format))
    else if pyIn "not done" raw_value then
      .ok (.int (-99), .str (strftime ⟨2999, 1, 1, 0, 0, 0⟩ date_format))
    else .ok (.str "Missing value not recognized", .str "Missing value not recognized")
  else
    match pySplit ';' raw_value with
    | [number, date] =>
      match (if number == "" then .ok .nan
             else match pyFloat number with
                  | .ok q => .ok (.float q)
                  | .error e => .error e : Except PyError BVal) with
      | .error e => .error e
      | .ok nv =>
        if date == "" then .error .typeError
        else
          match strptime_dmY date with
          | .ok dt => .ok (nv, .str (strftime dt date_format))
          | .error e => .error e
    | _ => .error .valueError

/-- Free function `interpret` (source lines 453–484): the dispatch; note the
absence of a `"grid"` branch. -/
def interpret (study : Study) (instance_of : CastorField) (raw_value : String) :
    Except PyError CellVal :=
  if ["checkbox", "dropdown", "radio"].contains instance_of.field_type then
    (interpret_optiongroup study instance_of raw_value).map (fun s => .base (.str s))
  else if ["numeric", "slider", "randomization"].contains instance_of.field_type then
    (interpret_numeric raw_value).map .base
  else if ["year"].contains instance_of.field_type then
    (interpret_year raw_value).map .base
  else if ["string", "textarea", "upload", "calculation"].contains instance_of.field_type then
    .ok (.base (.str raw_value))
  else if ["datetime"].contains instance_of.field_type then
    (interpret_datetime study.configuration.datetime raw_value).map .base
  else if ["date"].contains instance_of.field_type then
    (interpret_date study.configuration.date raw_value).map .base
  else if ["time"].contains instance_of.field_type then
    (interpret_time study.configuration.time raw_value).map (fun s => .base (.str s))
  else if ["numberdate"].contains instance_of.field_type then
    (interpret_numberdate study.configuration.date raw_value).map (fun p => .pair p.1 p.2)
  else .ok (.base (.str "Error"))

/-! ## JSON: the fragment of `json.loads` the grid code relies on.
Strings (escapes `\" \\ \/ \b \f \n \r \t`; `\uXXXX` is outside the modelled
fragment), numbers, literals, arrays and objects; `NaN`/`Infinity` are outside
the modelled fragment.  Duplicate object keys keep the first position and the
last value, as a Python dict built by `json.loads` does. -/

def jskipWs (cs : List Char) : List Char :=
  cs.dropWhile (fun c => c == ' ' || c == '\t' || c == '\n' || c == (Char.ofNat 13))

/-- Content of a JSON string literal after the opening quote: returns the
decoded characters and the input after the closing quote. -/
def parseJStrAux : List Char → Option (List Char × List Char)
  | [] => none
  | '"' :: rest => some ([], rest)
  | '\\' :: e :: rest =>
    match (match e with
           | '"' => some '"'
           | '\\' => some '\\'
           | '/' => some '/'
           | 'b' => some (Char.ofNat 8)
           | 'f' => some (Char.ofNat 12)
           | 'n' => some '\n'
           | 'r' => some (Char.ofNat 13)
           | 't' => some '\t'
           | _ => none) with
    | some c =>
      match parseJStrAux rest with
      | some p => some (c :: p.1, p.2)
      | none => none
    | none => none
  | c :: rest =>
    if c.toNat < 32 then none
    else
      match parseJStrAux rest with
      | some p => some (c :: p.1, p.2)
      | none => none

def isNumChar (c : Char) : Bool :=
  c.isDigit || c == '-' || c == '+' || c == '.' || c == 'e' || c == 'E'

/-- JSON integer part: `0` or a nonzero digit followed by digits. -/
def jsonIntOk (i : List Char) : Bool :=
  match i with
  | [] => false
  | ['0'] => true
  | '0' :: _ => false
  | _ => i.all Char.isDigit

def parseJMant (m : List Char) : Option (Nat × Nat) :=
  match splitCharL '.' m with
  | [i] => if jsonIntOk i then some (digitsToNat i, 1) else none
  | [i, f] =>
    if jsonIntOk i && isDigits1 f then some (digitsToNat (i ++ f), 10 ^ f.length) else none
  | _ => none

def parseJBody (body : List Char) : Option (Nat × Nat) :=
  let body := body.map (fun c => if c == 'E' then 'e' else c)
  match splitCharL 'e' body with
  | [m] => parseJMant m
  | [m, e] =>
    match parseJMant m, parseExp e with
    | some nd, some ex =>
      if 0 ≤ ex then some (nd.1 * 10 ^ ex.toNat, nd.2)
      else some (nd.1, nd.2 * 10 ^ (-ex).toNat)
    | _, _ => none
  | _ => none

def parseJNum (span : List Char) : Option Rat :=
  match span with
  | '-' :: body => (parseJBody body).map fun nd => mkRat (-(nd.1 : Int)) nd.2
  | body => (parseJBody body).map fun nd => mkRat nd.1 nd.2

/-- Keep the first position and the last value of every object key. -/
def dedupFields (fs : List (String × JValue)) : List (String × JValue) :=
  fs.foldl (fun acc kv =>
    if acc.any (fun p => p.1 == kv.1) then
      acc.map (fun p => if p.1 == kv.1 then (p.1, kv.2) else p)
    else acc ++ [kv]) []

/-- Fueled JSON parser.  `mode` 0 parses one value, 1 the tail of an array
(after `[` and any leading whitespace, empty case excluded), 2 the members of
an object; modes 1 and 2 return their result wrapped in `.arr` / `.obj`. -/
def parseJ (fuel : Nat) (mode : Nat) (cs : List Char) : Option (JValue × List Char) :=
  match fuel with
  | 0 => none
  | fuel + 1 =>
    if mode == 0 then
      match jskipWs cs with
      | [] => none
      | '{' :: rest =>
        match jskipWs rest with
        | '}' :: r2 => some (.obj [], r2)
        | cs2 =>
          match parseJ fuel 2 cs2 with
          | some (.obj fs, r) => some (.obj (dedupFields fs), r)
          | _ => none
      | '[' :: rest =>
        match jskipWs rest with
        | ']' :: r2 => some (.arr [], r2)
        | cs2 =>
          match parseJ fuel 1 cs2 with
          | some (.arr es, r) => some (.arr es, r)
          | _ => none
      | '"' :: rest => (parseJStrAux rest).map fun p => (.str (String.mk p.1), p.2)
      | 't' :: rest =>
        if startsWithL ['r', 'u', 'e'] rest then some (.bool true, rest.drop 3) else none
      | 'f' :: rest =>
        if startsWithL ['a', 'l', 's', 'e'] rest then some (.bool false, rest.drop 4) else none
      | 'n' :: rest =>
        if startsWithL ['u', 'l', 'l'] rest then some (.null, rest.drop 3) else none
      | c :: rest =>
        if isNumChar c then
          let span := (c :: rest).takeWhile isNumChar
          match parseJNum span with
          | some q => some (.num q, (c :: rest).drop span.length)
          | none => none
        else none
    else if mode == 1 then
      match parseJ fuel 0 cs with
      | some (v, rest) =>
        (match jskipWs rest with
         | ',' :: r2 =>
           match parseJ fuel 1 r2 with
           | some (.arr vs, r3) => some (.arr (v :: vs), r3)
           | _ => none
         | ']' :: r2 => some (.arr [v], r2)
         | _ => none)
      | none => none
    else
      match jskipWs cs with
      | '"' :: rest =>
        match parseJStrAux rest with
        | none => none
        | some (key, rest1) =>
          match jskipWs rest1 with
          | ':' :: rest2 =>
            match parseJ fuel 0 rest2 with
            | none => none
            | some (v, rest3) =>
              match jskipWs rest3 with
              | ',' :: rest4 =>
                match parseJ fuel 2 rest4 with
                | some (.obj fs, rest5) => some (.obj ((String.mk key, v) :: fs), rest5)
                | _ => none
              | '}' :: rest4 => some (.obj [(String.mk key, v)], rest4)
              | _ => none
          | _ => none
      | _ => none

/-- Models `json.loads`, raising `json.decoder.JSONDecodeError` on malformed input. -/
def json_loads (s : String) : Except PyError JValue :=
  match parseJ (2 * s.length + 2) 0 s.data with
  | some (v, rest) => if (jskipWs rest).isEmpty then .ok v else .error .jsonError
  | none => .error .jsonError

/-! ## Grid machinery (models the body of `_CastorDataPoint__interpret_grid`,
source lines 347–431, including the `pandas.DataFrame` manipulations). -/

/-- One cell of the raw grid table: a JSON string, the `NaN` a ragged
`pd.DataFrame` pads short rows with, or some other JSON payload. -/
inductive Cell where
  | str (s : String)
  | padNaN
  | other (j : JValue)

def toCell : JValue → Cell
  | .str s => .str s
  | j => .other j

/-- Rows of `pd.DataFrame(grid_rows)`: each JSON row must be an array (other
row shapes are outside the modelled fragment and treated as a constructor
failure); short rows are padded with NaN to the width of the longest. -/
def rowToCells : JValue → Except PyError (List Cell)
  | .arr xs => .ok (xs.map toCell)
  | _ => .error .valueError

def dfWidth (rows : List (List Cell)) : Nat :=
  rows.foldl (fun m r => max m r.length) 0

def padRows (rows : List (List Cell)) : List (List Cell) :=
  let w := dfWidth rows
  rows.map (fun r => r ++ List.replicate (w - r.length) Cell.padNaN)

/-- Transpose of a rectangular table (`DataFrame.T`). -/
def transposeCells (rows : List (List Cell)) : List (List Cell) :=
  (List.range (dfWidth rows)).map (fun i => rows.map (fun r => r.getD i Cell.padNaN))

/-- Python `name.split(' ')[0]`. -/
def firstTok (s : String) : String := (pySplit ' ' s).headD ""

/-- Python `all(x == xs[0] for x in xs)` (vacuously true on the empty list,
where the generator never evaluates `xs[0]`). -/
def allSameHead (xs : List String) : Bool :=
  match xs with
  | [] => true
  | x :: rest => rest.all (· == x)

/-- Subscript `j[key]` on a parsed JSON value. -/
def jGet (j : JValue) (key : String) : Except PyError JValue :=
  match j with
  | .obj fs =>
    match fs.foldl (fun acc kv => if kv.1 == key then some kv.2 else acc) none with
    | some v => .ok v
    | none => .error .keyError
  | _ => .error .typeError

/-- Iteration over a parsed JSON value (lists yield elements, strings their
characters, objects their keys; the rest raise `TypeError`). -/
def jIter : JValue → Except PyError (List JValue)
  | .arr xs => .ok xs
  | .str s => .ok (s.data.map (fun c => .str (String.mk [c])))
  | .obj fs => .ok (fs.map (fun kv => .str kv.1))
  | _ => .error .typeError

/-- Python `len` on a parsed JSON value. -/
def jLen : JValue → Except PyError Nat
  | .arr xs => .ok xs.length
  | .str s => .ok s.length
  | .obj fs => .ok fs.length
  | _ => .error .typeError

/-- Subscript `j[i]` with an integer index on a parsed JSON value. -/
def jIndex (j : JValue) (i : Nat) : Except PyError JValue :=
  match j with
  | .arr xs =>
    match xs.get? i with
    | some v => .ok v
    | none => .error .indexError
  | .str s =>
    match s.data.get? i with
    | some c => .ok (.str (String.mk [c]))
    | none => .error .indexError
  | .obj _ => .error .keyError
  | _ => .error .typeError

/-- Models `json.loads(raw).values()`. -/
def jValues : JValue → Except PyError (List JValue)
  | .obj fs => .ok (fs.map (fun kv => kv.2))
  | _ => .error .attrError

/-- Models `[x.split(' ')[0] for x in names]` where `names` is a parsed JSON value:
non-string entries raise `AttributeError`. -/
def firstTokList (names : JValue) : Except PyError (List String) :=
  match jIter names with
  | .error e => .error e
  | .ok js =>
    mapE (fun j =>
      match j with
      | .str s => .ok (firstTok s)
      | _ => .error .attrError) js

/-- Models `[x.strip() for x in names]` on a parsed JSON value. -/
def stripLabels (names : JValue) : Except PyError (List String) :=
  match jIter names with
  | .error e => .error e
  | .ok js =>
    mapE (fun j =>
      match j with
      | .str s => .ok (pyStrip s)
      | _ => .error .attrError) js

/-- The field-type tag taken from a template `fieldTypes` entry; a non-string
entry yields a tag matching none of the dispatch lists. -/
def jToTypeTag : JValue → String
  | .str s => s
  | _ => "#nonstring#"

/-- The option-group id taken from a template `optionLists` entry (`null` or a
non-string entry resolves to no group, as `get_single_optiongroup` finds
nothing for it). -/
def jToOptGroup : JValue → Option String
  | .str s => some s
  | _ => none

/-- Interpretation of one grid cell.  String cells go through the free
dispatch `interpret`; `padNaN` and `other` model `interpret` applied to a
non-`str` raw value: `raw_value == ""` is `False`, the string-like branch
returns the payload unchanged, every missing-handling branch raises
`TypeError` from `"Missing" in raw_value`, and unmatched type tags fall to
the `"Error"` branch. -/
def interpretCell (study : Study) (instance_of : CastorField) : Cell → Except PyError CellVal
  | .str s => interpret study instance_of s
  | .padNaN =>
    if ["string", "textarea", "upload", "calculation"].contains instance_of.field_type then
      .ok (.base .nan)
    else if ["checkbox", "dropdown", "radio", "numeric", "slider", "randomization", "year",
        "datetime", "date", "time", "numberdate"].contains instance_of.field_type then
      .error .typeError
    else .ok (.base (.str "Error"))
  | .other j =>
    if ["string", "textarea", "upload", "calculation"].contains instance_of.field_type then
      .ok (.jraw j)
    else if ["checkbox", "dropdown", "radio", "numeric", "slider", "randomization", "year",
        "datetime", "date", "time", "numberdate"].contains instance_of.field_type then
      .error .typeError
    else .ok (.base (.str "Error"))

/-- Orientation step of `__interpret_grid` (source lines 378–399).  Returns
the possibly transposed table together with `some (row_names, col_names)`,
or `none` for them when the square table matches neither homogeneity check
and both stay unbound (their later use raises `NameError`). -/
def orientGrid (grid_template : JValue) (raw_grid_df : List (List Cell)) :
    Except PyError (List (List Cell) × Option (JValue × JValue)) :=
  if raw_grid_df.length != dfWidth raw_grid_df then
    match jGet grid_template "fieldTypes" with
    | .error e => .error e
    | .ok ftv =>
      match jLen ftv with
      | .error e => .error e
      | .ok n =>
        if n == dfWidth raw_grid_df then
          match jGet grid_template "rowNames" with
          | .error e => .error e
          | .ok rn =>
            match jGet grid_template "columnNames" with
            | .error e => .error e
            | .ok cn => .ok (raw_grid_df, some (rn, cn))
        else
          match jGet grid_template "columnNames" with
          | .error e => .error e
          | .ok cn =>
            match jGet grid_template "rowNames" with
            | .error e => .error e
            | .ok rn => .ok (transposeCells raw_grid_df, some (cn, rn))
  else
    match jGet grid_template "columnNames" with
    | .error e => .error e
    | .ok cnv =>
      match firstTokList cnv with
      | .error e => .error e
      | .ok col_check =>
        match jGet grid_template "rowNames" with
        | .error e => .error e
        | .ok rnv =>
          match firstTokList rnv with
          | .error e => .error e
          | .ok row_check =>
            if allSameHead col_check then .ok (transposeCells raw_grid_df, some (cnv, rnv))
            else if allSameHead row_check then .ok (raw_grid_df, some (rnv, cnv))
            else .ok (raw_grid_df, none)

/-- Per-column interpretation loop of `__interpret_grid` (source lines
403–421): column `col_num` is interpreted cell by cell with a synthetic
`CastorField` built from `fieldTypes[col_num]` and `optionLists[col_num]`. -/
def interpretCols (study : Study) (field_name : String) (grid_template : JValue)
    (cols : List (List Cell)) : Except PyError (List (List CellVal)) :=
  mapE (fun p =>
    match jGet grid_template "fieldTypes" with
    | .error e => .error e
    | .ok ftv =>
      match jIndex ftv p.1 with
      | .error e => .error e
      | .ok ftj =>
        match jGet grid_template "optionLists" with
        | .error e => .error e
        | .ok olv =>
          match jIndex olv p.1 with
          | .error e => .error e
          | .ok olj =>
            mapE (interpretCell study
              { field_name := field_name ++ " - grid object"
                field_type := jToTypeTag ftj
                field_option_group := jToOptGroup olj
                field_summary_template := "" }) p.2) cols.enum

/-! ## The method versions (`_CastorDataPoint__interpret*`, source lines
49–431), embedded separately from their own lines; `study`, `instance_of` and
`raw_value` stand for `study`, `self.instance_of` and `self.raw_value`. -/

namespace CastorDataPoint

/-- Method `__interpret_time` (source lines 84–105). -/
def interpret_time (time_format : String) (raw_value : String) : Except PyError String :=
  if raw_value == "" then .ok ""
  else if pyIn "Missing" raw_value then
    if pyIn "measurement failed" raw_value then .ok "-95"
    else if pyIn "not applicable" raw_value then .ok "-96"
    else if pyIn "not asked" raw_value then .ok "-97"
    else if pyIn "asked but unknown" raw_value then .ok "-98"
    else if pyIn "not done" raw_value then .ok "-99"
    else .ok "Missing value not recognized"
  else
    match strptime_HM raw_value with
    | .ok hm => .ok (strftime ⟨1900, 1, 1, hm.1, hm.2, 0⟩ time_format)
    | .error e => .error e

/-- Method `__interpret_datetime` (source lines 107–144). -/
def interpret_datetime (datetime_format : String) (raw_value : String) : Except PyError BVal :=
  if raw_value == "" then .ok .nan
  else if pyIn "Missing" raw_value then
    if pyIn "measurement failed" raw_value then .ok (.str (strftime ⟨2995, 1, 1, 0, 0, 0⟩ datetime_format))
    else if pyIn "not applicable" raw_value then .ok (.str (strftime ⟨2996, 1, 1, 0, 0, 0⟩ datetime_format))
    else if pyIn "not asked" raw_value then .ok (.str (strftime ⟨2997, 1, 1, 0, 0, 0⟩ datetime_format))
    else if pyIn "asked but unknown" raw_value then .ok (.str (strftime ⟨2998, 1, 1, 0, 0, 0⟩ datetime_format))
    else if pyIn "not done" raw_value then .ok (.str (strftime ⟨2999, 1, 1, 0, 0, 0⟩ datetime_format))
    else .ok (.str "Missing value not recognized")
  else
    match strptime_dmY_HM raw_value with
    | .ok dt => .ok (.str (strftime dt datetime_format))
    | .error _ =>
      match strptime_dmY raw_value with
      | .ok dt => .ok (.str (strftime dt datetime_format))
      | .error e => .error e

/-- Method `__interpret_date` (source lines 146–183). -/
def interpret_date (date_format : String) (raw_value : String) : Except PyError BVal :=
  if raw_value == "" then .ok .nan
  else if pyIn "Missing" raw_value then
    if pyIn "measurement failed" raw_value then .ok (.str (strftime ⟨2995, 1, 1, 0, 0, 0⟩ date_format))
    else if pyIn "not applicable" raw_value then .ok (.str (strftime ⟨2996, 1, 1, 0, 0, 0⟩ date_format))
    else if pyIn "not asked" raw_value then .ok (.str (strftime ⟨2997, 1, 1, 0, 0, 0⟩ date_format))
    else if pyIn "asked but unknown" raw_value then .ok (.str (strftime ⟨2998, 1, 1, 0, 0, 0⟩ date_format))
    else if pyIn "not done" raw_value then .ok (.str (strftime ⟨2999, 1, 1, 0, 0, 0⟩ date_format))
    else .ok (.str "Missing value not recognized")
  else
    match strptime_dmY raw_value with
    | .ok dt => .ok (.str (strftime dt date_format))
    | .error _ =>
      match strptime_dmY_HM raw_value with
      | .ok dt => .ok (.str (strftime dt "%d-%m-%Y;%H:%M"))
      | .error e => .error e

/-- Method `__interpret_optiongroup_helper` (source lines 206–238). -/
def interpret_optiongroup_helper (study : Study) (instance_of : CastorField)
    (raw_value : String) : Except PyError String :=
  let optiongroup := instance_of.field_option_group
  match (match optiongroup with
         | some g => study.get_single_optiongroup g
         | none => none) with
  | none => .error .optiongroupNotFound
  | some study_optiongroup =>
    let options := study_optiongroup.options
    let value_list := pySplit ';' raw_value
    let new_values : Except PyError (List String) :=
      if value_list == [""] then .ok [""]
      else if study.pass_keyerrors then
        .ok (value_list.map (fun v => (dictGet options v).getD v))
      else
        mapE (fun v =>
          match dictGet options v with
          | some n => .ok n
          | none => .error .keyMappingFailed) value_list
    match new_values with
    | .ok vs => .ok (joinSep "|" vs)
    | .error e => .error e

/-- Method `__interpret_optiongroup` (source lines 185–204). -/
def interpret_optiongroup (study : Study) (instance_of : CastorField)
    (raw_value : String) : Except PyError String :=
  if raw_value == "" then .ok ""
  else if pyIn "Missing" raw_value then
    if pyIn "measurement failed" raw_value then .ok "measurement failed"
    else if pyIn "not applicable" raw_value then .ok "not applicable"
    else if pyIn "not asked" raw_value then .ok "not asked"
    else if pyIn "asked but unknown" raw_value then .ok "asked but unknown"
    else if pyIn "not done" raw_value then .ok "not done"
    else .ok "Missing value not recognized"
  else interpret_optiongroup_helper study instance_of raw_value

/-- Method `__interpret_numeric` (source lines 240–259). -/
def interpret_numeric (raw_value : String) : Except PyError BVal :=
  if raw_value == "" then .ok .nan
  else if pyIn "Missing" raw_value then
    if pyIn "measurement failed" raw_value then .ok (.int (-95))
    else if pyIn "not applicable" raw_value then .ok (.int (-96))
    else if pyIn "not asked" raw_value then .ok (.int (-97))
    else if pyIn "asked but unknown" raw_value then .ok (.int (-98))
    else if pyIn "not done" raw_value then .ok (.int (-99))
    else .ok (.str "Missing value not recognized")
  else
    match pyFloat raw_value with
    | .ok q => .ok (.float q)
    | .error e => .error e

/-- Method `__interpret_year` (source lines 261–280). -/
def interpret_year (raw_value : String) : Except PyError BVal :=
  if raw_value == "" then .ok .nan
  else if pyIn "Missing" raw_value then
    if pyIn "measurement failed" raw_value then .ok (.int (-95))
    else if pyIn "not applicable" raw_value then .ok (.int (-96))
    else if pyIn "not asked" raw_value then .ok (.int (-97))
    else if pyIn "asked but unknown" raw_value then .ok (.int (-98))
    else if pyIn "not done" raw_value then .ok (.int (-99))
    else .ok (.str "Missing value not recognized")
  else
    match pyInt raw_value with
    | .ok n => .ok (.int n)
    | .error e => .error e

/-- Method `__interpret_numberdate` (source lines 282–344); the empty-sub-part
replacement by `np.nan` makes `float` return NaN for the number but makes
`datetime.strptime` raise `TypeError` for the date. -/
def interpret_numberdate (date_format : String) (raw_value : String) :
    Except PyError (BVal × BVal) :=
  if raw_value == "" then .ok (.nan, .nan)
  else if pyIn "Missing" raw_value then
    if pyIn "measurement failed" raw_value then
      .ok (.int (-95), .str (strftime ⟨2995, 1, 1, 0, 0, 0⟩ date_format))
    else if pyIn "not applicable" raw_value then
      .ok (.int (-96), .str (strftime ⟨2996, 1, 1, 0, 0, 0⟩ date_format))
    else if pyIn "not asked" raw_value then
      .ok (.int (-97), .str (strftime ⟨2997, 1, 1, 0, 0, 0⟩ date_format))
    else if pyIn "asked but unknown" raw_value then
      .ok (.int (-98), .str (strftime ⟨2998, 1, 1, 0, 0, 0⟩ date_format))
    else if pyIn "not done" raw_value then
      .ok (.int (-99), .str (strftime ⟨2999, 1, 1, 0, 0, 0⟩ date_format))
    else .ok (.str "Missing value not recognized", .str "Missing value not recognized")
  else
    match pySplit ';' raw_value with
    | [number, date] =>
      match (if number == "" then .ok .nan
             else match pyFloat number with
                  | .ok q => .ok (.float q)
                  | .error e => .error e : Except PyError BVal) with
      | .error e => .error e
      | .ok nv =>
        if date == "" then .error .typeError
        else
          match strptime_dmY date with
          | .ok dt => .ok (nv, .str (strftime dt date_format))
          | .error e => .error e
    | _ => .error .valueError

/-- Body of the `try` block of `__interpret_grid` (source lines 353–427):
template parse, raw-value parse (a `JSONDecodeError` there is caught, leaving
`grid_rows` unbound so its use raises `NameError`), `DataFrame` construction,
orientation, per-column cell interpretation and the final labelling with the
stripped names (a label list whose length does not match the axis raises
`ValueError`). -/
def interpret_grid_body (study : Study) (instance_of : CastorField)
    (raw_value : String) : Except PyError Value :=
  match json_loads instance_of.field_summary_template with
  | .error e => .error e
  | .ok grid_template =>
    match (match json_loads raw_value with
           | .ok j => jValues j
           | .error _ => .error .nameError : Except PyError (List JValue)) with
    | .error e => .error e
    | .ok grid_rows =>
      match mapE rowToCells grid_rows with
      | .error e => .error e
      | .ok rows0 =>
        let raw_grid_df := padRows rows0
        match orientGrid grid_template raw_grid_df with
        | .error e => .error e
        | .ok (df, names) =>
          match interpretCols study instance_of.field_name grid_template
              (transposeCells df) with
          | .error e => .error e
          | .ok cols_interpreted =>
            match names with
            | none => .error .nameError
            | some (row_names, col_names) =>
              match stripLabels col_names with
              | .error e => .error e
              | .ok colLabels =>
                if colLabels.length != cols_interpreted.length then .error .valueError
                else
                  match stripLabels row_names with
                  | .error e => .error e
                  | .ok rowLabels =>
                    let nrows := match cols_interpreted with
                                 | [] => 0
                                 | col :: _ => col.length
                    if rowLabels.length != nrows then .error .valueError
                    else .ok (.table cols_interpreted colLabels rowLabels)

/-- Method `__interpret_grid` (source lines 347–431): NaN when the raw value
or the summary template is empty, otherwise the bare `except:` turns every
failure of the body into the literal string `"Error"`. -/
def interpret_grid (study : Study) (instance_of : CastorField)
    (raw_value : String) : Except PyError Value :=
  if raw_value == "" || instance_of.field_summary_template == "" then
    .ok (.c (.base .nan))
  else
    match interpret_grid_body study instance_of raw_value with
    | .ok v => .ok v
    | .error _ => .ok (.c (.base (.str "Error")))

/-- Method `__interpret` (source lines 49–82): the dispatch, including the
`"grid"` branch the free function `interpret` lacks. -/
def interpret (study : Study) (instance_of : CastorField) (raw_value : String) :
    Except PyError Value :=
  if ["checkbox", "dropdown", "radio"].contains instance_of.field_type then
    (interpret_optiongroup study instance_of raw_value).map (fun s => .c (.base (.str s)))
  else if ["numeric", "slider", "randomization"].contains instance_of.field_type then
    (interpret_numeric raw_value).map (fun b => .c (.base b))
  else if ["year"].contains instance_of.field_type then
    (interpret_year raw_value).map (fun b => .c (.base b))
  else if ["string", "textarea", "upload", "calculation"].contains instance_of.field_type then
    .ok (.c (.base (.str raw_value)))
  else if ["datetime"].contains instance_of.field_type then
    (interpret_datetime study.configuration.datetime raw_value).map (fun b => .c (.base b))
  else if ["date"].contains instance_of.field_type then
    (interpret_date study.configuration.date raw_value).map (fun b => .c (.base b))
  else if ["time"].contains instance_of.field_type then
    (interpret_time study.configuration.time raw_value).map (fun s => .c (.base (.str s)))
  else if ["numberdate"].contains instance_of.field_type then
    (interpret_numberdate study.configuration.date raw_value).map (fun p => .c (.pair p.1 p.2))
  else if ["grid"].contains instance_of.field_type then
    interpret_grid study instance_of raw_value
  else .ok (.c (.base (.str "Error")))

end CastorDataPoint

/-! ## Statement vocabulary: the missing-reason taxonomy of the claims. -/

/-- Index (0–4) of the first matching missing-reason substring in the fixed
priority order measurement failed, not applicable, not asked, asked but
unknown, not done; `none` when no reason substring occurs. -/
def firstReason (raw : String) : Option Nat :=
  if pyIn "measurement failed" raw then some 0
  else if pyIn "not applicable" raw then some 1
  else if pyIn "not asked" raw then some 2
  else if pyIn "asked but unknown" raw then some 3
  else if pyIn "not done" raw then some 4
  else none

def reasonText : Nat → String
  | 0 => "measurement failed"
  | 1 => "not applicable"
  | 2 => "not asked"
  | 3 => "asked but unknown"
  | _ => "not done"

/-- Sentinel of the numeric/slider/randomization/year types. -/
def numSentinel : Option Nat → BVal
  | some r => .int (-(95 + (r : Int)))
  | none => .str "Missing value not recognized"

/-- Sentinel of the time type. -/
def strSentinel : Option Nat → String
  | some r => "-" ++ toString (95 + r)
  | none => "Missing value not recognized"

/-- Sentinel of the checkbox/dropdown/radio types. -/
def optSentinel : Option Nat → String
  | some r => reasonText r
  | none => "Missing value not recognized"

/-- Sentinel of the date/datetime types: the pseudo-date year 2995+r. -/
def dateSentinel (fmt : String) : Option Nat → BVal
  | some r => .str (strftime ⟨2995 + r, 1, 1, 0, 0, 0⟩ fmt)
  | none => .str "Missing value not recognized"

/-- Sentinel pair of the numberdate type. -/
def numdateSentinel (fmt : String) : Option Nat → BVal × BVal
  | some r => (.int (-(95 + (r : Int))), .str (strftime ⟨2995 + r, 1, 1, 0, 0, 0⟩ fmt))
  | none => (.str "Missing value not recognized", .str "Missing value not recognized")

/-! ## Concrete fixtures used by witnesses and counterexamples. -/

/-- A study whose resolver knows no option group. -/
def study0 : Study :=
  { configuration := { date := "%d-%m-%Y", time := "%H:%M", datetime := "%d-%m-%Y %H:%M" }
    get_single_optiongroup := fun _ => none
    pass_keyerrors := false }

/-- The Yes/No option group of the specification example. -/
def ogYN : OptionGroup := ⟨[⟨"1", "Yes"⟩, ⟨"2", "No"⟩]⟩

/-- A study resolving `"OG1"` to the Yes/No option group. -/
def studyYN : Study :=
  { configuration := { date := "%d-%m-%Y", time := "%H:%M", datetime := "%d-%m-%Y %H:%M" }
    get_single_optiongroup := fun g => if g == "OG1" then some ogYN else none
    pass_keyerrors := false }

/-- Fixture `studyYN` with `pass_keyerrors` set. -/
def studyYNpass : Study :=
  { studyYN with pass_keyerrors := true }

/-- A study whose date format is `"%Y-%m-%d"`. -/
def studyYMD : Study :=
  { study0 with configuration := { date := "%Y-%m-%d", time := "%H:%M", datetime := "%Y-%m-%d %H:%M" } }

/-! ## Dispatch lemmas: the method dispatch at each concrete type tag. -/

theorem dispatch_numeric (study : Study) (nm : String) (og : Option String) (tmpl raw : String) :
    CastorDataPoint.interpret study ⟨nm, "numeric", og, tmpl⟩ raw
      = (CastorDataPoint.interpret_numeric raw).map (fun b => .c (.base b)) := rfl

theorem dispatch_slider (study : Study) (nm : String) (og : Option String) (tmpl raw : String) :
    CastorDataPoint.interpret study ⟨nm, "slider", og, tmpl⟩ raw
      = (CastorDataPoint.interpret_numeric raw).map (fun b => .c (.base b)) := rfl

theorem dispatch_randomization (study : Study) (nm : String) (og : Option String) (tmpl raw : String) :
    CastorDataPoint.interpret study ⟨nm, "randomization", og, tmpl⟩ raw
      = (CastorDataPoint.interpret_numeric raw).map (fun b => .c (.base b)) := rfl

theorem dispatch_year (study : Study) (nm : String) (og : Option String) (tmpl raw : String) :
    CastorDataPoint.interpret study ⟨nm, "year", og, tmpl⟩ raw
      = (CastorDataPoint.interpret_year raw).map (fun b => .c (.base b)) := rfl

theorem dispatch_checkbox (study : Study) (nm : String) (og : Option String) (tmpl raw : String) :
    CastorDataPoint.interpret study ⟨nm, "checkbox", og, tmpl⟩ raw
      = (CastorDataPoint.interpret_optiongroup study ⟨nm, "checkbox", og, tmpl⟩ raw).map
          (fun s => .c (.base (.str s))) := rfl

theorem dispatch_dropdown (study : Study) (nm : String) (og : Option String) (tmpl raw : String) :
    CastorDataPoint.interpret study ⟨nm, "dropdown", og, tmpl⟩ raw
      = (CastorDataPoint.interpret_optiongroup study ⟨nm, "dropdown", og, tmpl⟩ raw).map
          (fun s => .c (.base (.str s))) := rfl

theorem dispatch_radio (study : Study) (nm : String) (og : Option String) (tmpl raw : String) :
    CastorDataPoint.interpret study ⟨nm, "radio", og, tmpl⟩ raw
      = (CastorDataPoint.interpret_optiongroup study ⟨nm, "radio", og, tmpl⟩ raw).map
          (fun s => .c (.base (.str s))) := rfl

theorem dispatch_string (study : Study) (nm : String) (og : Option String) (tmpl raw : String) :
    CastorDataPoint.interpret study ⟨nm, "string", og, tmpl⟩ raw
      = .ok (.c (.base (.str raw))) := rfl

theorem dispatch_textarea (study : Study) (nm : String) (og : Option String) (tmpl raw : String) :
    CastorDataPoint.interpret study ⟨nm, "textarea", og, tmpl⟩ raw
      = .ok (.c (.base (.str raw))) := rfl

theorem dispatch_upload (study : Study) (nm : String) (og : Option String) (tmpl raw : String) :
    CastorDataPoint.interpret study ⟨nm, "upload", og, tmpl⟩ raw
      = .ok (.c (.base (.str raw))) := rfl

theorem dispatch_calculation (study : Study) (nm : String) (og : Option String) (tmpl raw : String) :
    CastorDataPoint.interpret study ⟨nm, "calculation", og, tmpl⟩ raw
      = .ok (.c (.base (.str raw))) := rfl

theorem dispatch_datetime (study : Study) (nm : String) (og : Option String) (tmpl raw : String) :
    CastorDataPoint.interpret study ⟨nm, "datetime", og, tmpl⟩ raw
      = (CastorDataPoint.interpret_datetime study.configuration.datetime raw).map
          (fun b => .c (.base b)) := rfl

theorem dispatch_date (study : Study) (nm : String) (og : Option String) (tmpl raw : String) :
    CastorDataPoint.interpret study ⟨nm, "date", og, tmpl⟩ raw
      = (CastorDataPoint.interpret_date study.configuration.date raw).map
          (fun b => .c (.base b)) := rfl

theorem dispatch_time (study : Study) (nm : String) (og : Option String) (tmpl raw : String) :
    CastorDataPoint.interpret study ⟨nm, "time", og, tmpl⟩ raw
      = (CastorDataPoint.interpret_time study.configuration.time raw).map
          (fun s => .c (.base (.str s))) := rfl

theorem dispatch_numberdate (study : Study) (nm : String) (og : Option String) (tmpl raw : String) :
    CastorDataPoint.interpret study ⟨nm, "numberdate", og, tmpl⟩ raw
      = (CastorDataPoint.interpret_numberdate study.configuration.date raw).map
          (fun p => .c (.pair p.1 p.2)) := rfl

theorem dispatch_grid (study : Study) (nm : String) (og : Option String) (tmpl raw : String) :
    CastorDataPoint.interpret study ⟨nm, "grid", og, tmpl⟩ raw
      = CastorDataPoint.interpret_grid study ⟨nm, "grid", og, tmpl⟩ raw := rfl

/-- C2: for every field type, interpreting the empty raw value returns the
documented empty representation without raising: NaN for
numeric/slider/randomization/year/date/datetime and for grid, the empty
string for time and for checkbox/dropdown/radio, the raw value itself for
string/textarea/upload/calculation, and the pair [NaN, NaN] for numberdate. -/
theorem C2_empty_representation (study : Study) (nm : String) (og : Option String)
    (tmpl : String) :
    CastorDataPoint.interpret study ⟨nm, "numeric", og, tmpl⟩ "" = .ok (.c (.base .nan))
    ∧ CastorDataPoint.interpret study ⟨nm, "slider", og, tmpl⟩ "" = .ok (.c (.base .nan))
    ∧ CastorDataPoint.interpret study ⟨nm, "randomization", og, tmpl⟩ "" = .ok (.c (.base .nan))
    ∧ CastorDataPoint.interpret study ⟨nm, "year", og, tmpl⟩ "" = .ok (.c (.base .nan))
    ∧ CastorDataPoint.interpret study ⟨nm, "date", og, tmpl⟩ "" = .ok (.c (.base .nan))
    ∧ CastorDataPoint.interpret study ⟨nm, "datetime", og, tmpl⟩ "" = .ok (.c (.base .nan))
    ∧ CastorDataPoint.interpret study ⟨nm, "grid", og, tmpl⟩ "" = .ok (.c (.base .nan))
    ∧ CastorDataPoint.interpret study ⟨nm, "time", og, tmpl⟩ "" = .ok (.c (.base (.str "")))
    ∧ CastorDataPoint.interpret study ⟨nm, "checkbox", og, tmpl⟩ "" = .ok (.c (.base (.str "")))
    ∧ CastorDataPoint.interpret study ⟨nm, "dropdown", og, tmpl⟩ "" = .ok (.c (.base (.str "")))
    ∧ CastorDataPoint.interpret study ⟨nm, "radio", og, tmpl⟩ "" = .ok (.c (.base (.str "")))
    ∧ CastorDataPoint.interpret study ⟨nm, "string", og, tmpl⟩ "" = .ok (.c (.base (.str "")))
    ∧ CastorDataPoint.interpret study ⟨nm, "textarea", og, tmpl⟩ "" = .ok (.c (.base (.str "")))
    ∧ CastorDataPoint.interpret study ⟨nm, "upload", og, tmpl⟩ "" = .ok (.c (.base (.str "")))
    ∧ CastorDataPoint.interpret study ⟨nm, "calculation", og, tmpl⟩ "" = .ok (.c (.base (.str "")))
    ∧ CastorDataPoint.interpret study ⟨nm, "numberdate", og, tmpl⟩ "" = .ok (.c (.pair .nan .nan)) :=
  ⟨rfl, rfl, rfl, rfl, rfl, rfl, rfl, rfl, rfl, rfl, rfl, rfl, rfl, rfl, rfl, rfl⟩

/-- C10: for checkbox, dropdown and radio fields with raw value "",
interpretation returns "" for every resolver and option-group id — the
resolver is never consulted, so the result does not depend on it. -/
theorem C10_empty_optiongroup_no_resolver (cfg : Configuration)
    (resolver : String → Option OptionGroup) (pk : Bool) (nm : String)
    (og : Option String) (tmpl : String) :
    CastorDataPoint.interpret ⟨cfg, resolver, pk⟩ ⟨nm, "checkbox", og, tmpl⟩ ""
      = .ok (.c (.base (.str "")))
    ∧ CastorDataPoint.interpret ⟨cfg, resolver, pk⟩ ⟨nm, "dropdown", og, tmpl⟩ ""
      = .ok (.c (.base (.str "")))
    ∧ CastorDataPoint.interpret ⟨cfg, resolver, pk⟩ ⟨nm, "radio", og, tmpl⟩ ""
      = .ok (.c (.base (.str ""))) :=
  ⟨rfl, rfl, rfl⟩

/-! ## Missing-marker chain lemmas (shared by several claims). -/

theorem missing_ne_empty {raw : String} (h : pyIn "Missing" raw = true) :
    (raw == "") = false := by
  rcases eq_or_ne raw "" with rfl | hne
  · exact absurd h (by decide)
  · simp [hne]

theorem interpret_numeric_missing {raw : String} (h : pyIn "Missing" raw = true) :
    CastorDataPoint.interpret_numeric raw = .ok (numSentinel (firstReason raw)) := by
  simp only [CastorDataPoint.interpret_numeric, firstReason, missing_ne_empty h, h,
    Bool.false_eq_true, if_false, if_true]
  split_ifs <;> rfl

theorem interpret_year_missing {raw : String} (h : pyIn "Missing" raw = true) :
    CastorDataPoint.interpret_year raw = .ok (numSentinel (firstReason raw)) := by
  simp only [CastorDataPoint.interpret_year, firstReason, missing_ne_empty h, h,
    Bool.false_eq_true, if_false, if_true]
  split_ifs <;> rfl

theorem interpret_optiongroup_missing (study : Study) (f : CastorField) {raw : String}
    (h : pyIn "Missing" raw = true) :
    CastorDataPoint.interpret_optiongroup study f raw = .ok (optSentinel (firstReason raw)) := by
  simp only [CastorDataPoint.interpret_optiongroup, firstReason, missing_ne_empty h, h,
    Bool.false_eq_true, if_false, if_true]
  split_ifs <;> rfl

theorem interpret_time_missing (fmt : String) {raw : String}
    (h : pyIn "Missing" raw = true) :
    CastorDataPoint.interpret_time fmt raw = .ok (strSentinel (firstReason raw)) := by
  simp only [CastorDataPoint.interpret_time, firstReason, missing_ne_empty h, h,
    Bool.false_eq_true, if_false, if_true]
  split_ifs <;> rfl

theorem interpret_date_missing (fmt : String) {raw : String}
    (h : pyIn "Missing" raw = true) :
    CastorDataPoint.interpret_date fmt raw = .ok (dateSentinel fmt (firstReason raw)) := by
  simp only [CastorDataPoint.interpret_date, firstReason, missing_ne_empty h, h,
    Bool.false_eq_true, if_false, if_true]
  split_ifs <;> rfl

theorem interpret_datetime_missing (fmt : String) {raw : String}
    (h : pyIn "Missing" raw = true) :
    CastorDataPoint.interpret_datetime fmt raw = .ok (dateSentinel fmt (firstReason raw)) := by
  simp only [CastorDataPoint.interpret_datetime, firstReason, missing_ne_empty h, h,
    Bool.false_eq_true, if_false, if_true]
  split_ifs <;> rfl

theorem interpret_numberdate_missing (fmt : String) {raw : String}
    (h : pyIn "Missing" raw = true) :
    CastorDataPoint.interpret_numberdate fmt raw
      = .ok (numdateSentinel fmt (firstReason raw)) := by
  simp only [CastorDataPoint.interpret_numberdate, firstReason, numdateSentinel,
    missing_ne_empty h, h, Bool.false_eq_true, if_false, if_true]
  split_ifs <;> rfl

/-- C1: for every field type with missing handling (numeric, slider,
randomization, year, checkbox, dropdown, radio, time, date, datetime,
numberdate) and every raw value containing the substring "Missing", the
result is determined by the first matching reason substring in the fixed
priority order measurement failed, not applicable, not asked, asked but
unknown, not done (encoded by `firstReason`), with "Missing value not
recognized" (a pair of it for numberdate) when no reason substring occurs. -/
theorem C1_missing_priority (study : Study) (nm : String) (og : Option String)
    (tmpl raw : String) (h : pyIn "Missing" raw = true) :
    CastorDataPoint.interpret study ⟨nm, "numeric", og, tmpl⟩ raw
        = .ok (.c (.base (numSentinel (firstReason raw))))
    ∧ CastorDataPoint.interpret study ⟨nm, "slider", og, tmpl⟩ raw
        = .ok (.c (.base (numSentinel (firstReason raw))))
    ∧ CastorDataPoint.interpret study ⟨nm, "randomization", og, tmpl⟩ raw
        = .ok (.c (.base (numSentinel (firstReason raw))))
    ∧ CastorDataPoint.interpret study ⟨nm, "year", og, tmpl⟩ raw
        = .ok (.c (.base (numSentinel (firstReason raw))))
    ∧ CastorDataPoint.interpret study ⟨nm, "checkbox", og, tmpl⟩ raw
        = .ok (.c (.base (.str (optSentinel (firstReason raw)))))
    ∧ CastorDataPoint.interpret study ⟨nm, "dropdown", og, tmpl⟩ raw
        = .ok (.c (.base (.str (optSentinel (firstReason raw)))))
    ∧ CastorDataPoint.interpret study ⟨nm, "radio", og, tmpl⟩ raw
        = .ok (.c (.base (.str (optSentinel (firstReason raw)))))
    ∧ CastorDataPoint.interpret study ⟨nm, "time", og, tmpl⟩ raw
        = .ok (.c (.base (.str (strSentinel (firstReason raw)))))
    ∧ CastorDataPoint.interpret study ⟨nm, "date", og, tmpl⟩ raw
        = .ok (.c (.base (dateSentinel study.configuration.date (firstReason raw))))
    ∧ CastorDataPoint.interpret study ⟨nm, "datetime", og, tmpl⟩ raw
        = .ok (.c (.base (dateSentinel study.configuration.datetime (firstReason raw))))
    ∧ CastorDataPoint.interpret study ⟨nm, "numberdate", og, tmpl⟩ raw
        = .ok (.c (.pair (numdateSentinel study.configuration.date (firstReason raw)).1
            (numdateSentinel study.configuration.date (firstReason raw)).2)) := by
  refine ⟨?_, ?_, ?_, ?_, ?_, ?_, ?_, ?_, ?_, ?_, ?_⟩
  · rw [dispatch_numeric, interpret_numeric_missing h]; rfl
  · rw [dispatch_slider, interpret_numeric_missing h]; rfl
  · rw [dispatch_randomization, interpret_numeric_missing h]; rfl
  · rw [dispatch_year, interpret_year_missing h]; rfl
  · rw [dispatch_checkbox, interpret_optiongroup_missing _ _ h]; rfl
  · rw [dispatch_dropdown, interpret_optiongroup_missing _ _ h]; rfl
  · rw [dispatch_radio, interpret_optiongroup_missing _ _ h]; rfl
  · rw [dispatch_time, interpret_time_missing _ h]; rfl
  · rw [dispatch_date, interpret_date_missing _ h]; rfl
  · rw [dispatch_datetime, interpret_datetime_missing _ h]; rfl
  · rw [dispatch_numberdate, interpret_numberdate_missing _ h]; rfl

/-- Witness for C1 at the concrete raw value "Missing (not done)". -/
theorem C1_missing_priority_witness :
    pyIn "Missing" "Missing (not done)" = true
    ∧ CastorDataPoint.interpret study0 ⟨"f", "numeric", none, ""⟩ "Missing (not done)"
        = .ok (.c (.base (numSentinel (firstReason "Missing (not done)")))) :=
  ⟨by decide, (C1_missing_priority study0 "f" none "" "Missing (not done)" (by decide)).1⟩

theorem interpret_numeric_real {raw : String} (h1 : raw ≠ "")
    (h2 : pyIn "Missing" raw = false) :
    CastorDataPoint.interpret_numeric raw = (pyFloat raw).map .float := by
  have hne : (raw == "") = false := by simp [h1]
  simp only [CastorDataPoint.interpret_numeric, hne, h2, Bool.false_eq_true, if_false]
  cases pyFloat raw <;> rfl

theorem interpret_year_real {raw : String} (h1 : raw ≠ "")
    (h2 : pyIn "Missing" raw = false) :
    CastorDataPoint.interpret_year raw = (pyInt raw).map .int := by
  have hne : (raw == "") = false := by simp [h1]
  simp only [CastorDataPoint.interpret_year, hne, h2, Bool.false_eq_true, if_false]
  cases pyInt raw <;> rfl

/-- C3: numeric, slider and randomization fields parse a nonempty
non-missing raw value with `float(raw_value)` ("3.14" yields 3.14 = 157/50);
a raw value containing "Missing" whose first matching reason is number `r`
yields the sentinel -95 - r ("Missing (not done)" yields -99); year fields
use the same sentinels and `int(raw_value)` for the real-value parse. -/
theorem C3_numeric_parse_and_sentinels (study : Study) (nm : String)
    (og : Option String) (tmpl : String) :
    (∀ raw : String, raw ≠ "" → pyIn "Missing" raw = false →
        CastorDataPoint.interpret study ⟨nm, "numeric", og, tmpl⟩ raw
            = (pyFloat raw).map (fun q => .c (.base (.float q)))
        ∧ CastorDataPoint.interpret study ⟨nm, "slider", og, tmpl⟩ raw
            = (pyFloat raw).map (fun q => .c (.base (.float q)))
        ∧ CastorDataPoint.interpret study ⟨nm, "randomization", og, tmpl⟩ raw
            = (pyFloat raw).map (fun q => .c (.base (.float q)))
        ∧ CastorDataPoint.interpret study ⟨nm, "year", og, tmpl⟩ raw
            = (pyInt raw).map (fun n => .c (.base (.int n))))
    ∧ (∀ raw r, pyIn "Missing" raw = true → firstReason raw = some r →
        CastorDataPoint.interpret study ⟨nm, "numeric", og, tmpl⟩ raw
            = .ok (.c (.base (.int (-(95 + (r : Int))))))
        ∧ CastorDataPoint.interpret study ⟨nm, "year", og, tmpl⟩ raw
            = .ok (.c (.base (.int (-(95 + (r : Int)))))))
    ∧ CastorDataPoint.interpret study ⟨nm, "numeric", og, tmpl⟩ "3.14"
        = .ok (.c (.base (.float (mkRat 157 50))))
    ∧ CastorDataPoint.interpret study ⟨nm, "numeric", og, tmpl⟩ "Missing (not done)"
        = .ok (.c (.base (.int (-99)))) := by
  refine ⟨fun raw h1 h2 => ⟨?_, ?_, ?_, ?_⟩, fun raw r hm hr => ⟨?_, ?_⟩, rfl, rfl⟩
  · rw [dispatch_numeric, interpret_numeric_real h1 h2]; cases pyFloat raw <;> rfl
  · rw [dispatch_slider, interpret_numeric_real h1 h2]; cases pyFloat raw <;> rfl
  · rw [dispatch_randomization, interpret_numeric_real h1 h2]; cases pyFloat raw <;> rfl
  · rw [dispatch_year, interpret_year_real h1 h2]; cases pyInt raw <;> rfl
  · rw [dispatch_numeric, interpret_numeric_missing hm, hr]; rfl
  · rw [dispatch_year, interpret_year_missing hm, hr]; rfl

/-- Witness for C3 at the concrete raw values "3.14" and "2020". -/
theorem C3_numeric_parse_and_sentinels_witness :
    ("3.14" ≠ "" ∧ pyIn "Missing" "3.14" = false)
    ∧ CastorDataPoint.interpret study0 ⟨"f", "numeric", none, ""⟩ "3.14"
        = (pyFloat "3.14").map (fun q => .c (.base (.float q)))
    ∧ CastorDataPoint.interpret study0 ⟨"f", "year", none, ""⟩ "2020"
        = (pyInt "2020").map (fun n => .c (.base (.int n))) :=
  ⟨⟨by decide, by decide⟩,
    ((C3_numeric_parse_and_sentinels study0 "f" none "").1 "3.14" (by decide) (by decide)).1,
    ((C3_numeric_parse_and_sentinels study0 "f" none "").1 "2020" (by decide) (by decide)).2.2.2⟩

theorem splitCharL_ne_nil (c : Char) (l : List Char) : splitCharL c l ≠ [] := by
  cases l with
  | nil => simp [splitCharL]
  | cons x xs =>
    simp only [splitCharL]
    split
    · simp
    · split <;> simp

theorem pySplit_ne_single_empty {raw : String} (h : raw ≠ "") :
    pySplit ';' raw ≠ [""] := by
  rcases raw with ⟨l⟩
  rcases l with _ | ⟨c, cs⟩
  · exact absurd rfl h
  · simp only [pySplit, splitCharL]
    split
    · next heq => exact absurd heq (splitCharL_ne_nil ';' cs)
    · next hd t heq =>
      split
      · intro contra
        rw [List.map_cons] at contra
        injection contra with h1 h2
        exact absurd h2 (by simp)
      · intro contra
        rw [List.map_cons] at contra
        injection contra with h1 h2
        have h3 := congrArg String.data h1
        simp at h3

theorem mapE_lookup_all_some (opts : List CastorOption) (l : List String)
    (h : ∀ v ∈ l, (dictGet opts v).isSome) :
    mapE (fun v => match dictGet opts v with
                   | some n => .ok n
                   | none => .error .keyMappingFailed) l
      = .ok (l.map (fun v => (dictGet opts v).getD v)) := by
  induction l with
  | nil => rfl
  | cons x xs ih =>
    have hx := h x (List.mem_cons_self x xs)
    cases hox : dictGet opts x with
    | none => rw [hox] at hx; simp at hx
    | some n =>
      simp only [mapE, hox]
      rw [ih (fun v hv => h v (List.mem_cons_of_mem _ hv))]
      simp [hox]

theorem mapE_lookup_exists_none (opts : List CastorOption) (l : List String)
    (h : ∃ v ∈ l, dictGet opts v = none) :
    mapE (fun v => match dictGet opts v with
                   | some n => .ok n
                   | none => .error .keyMappingFailed) l
      = .error .keyMappingFailed := by
  induction l with
  | nil => rcases h with ⟨v, hv, _⟩; cases hv
  | cons x xs ih =>
    cases hox : dictGet opts x with
    | none => simp [mapE, hox]
    | some n =>
      rcases h with ⟨v, hv, hvn⟩
      rcases List.mem_cons.mp hv with rfl | hv'
      · rw [hox] at hvn; cases hvn
      · simp only [mapE, hox]
        rw [ih ⟨v, hv', hvn⟩]

theorem interpret_optiongroup_real (study : Study) (f : CastorField) {raw : String}
    (h1 : raw ≠ "") (h2 : pyIn "Missing" raw = false) :
    CastorDataPoint.interpret_optiongroup study f raw
      = CastorDataPoint.interpret_optiongroup_helper study f raw := by
  have hne : (raw == "") = false := by simp [h1]
  simp only [CastorDataPoint.interpret_optiongroup, hne, h2, Bool.false_eq_true, if_false]

theorem interpret_optiongroup_helper_resolved (study : Study) (f : CastorField)
    {raw : String} (h1 : raw ≠ "") {gid : String} {og : OptionGroup}
    (hog : f.field_option_group = some gid)
    (hres : study.get_single_optiongroup gid = some og) :
    CastorDataPoint.interpret_optiongroup_helper study f raw
      = if study.pass_keyerrors then
          .ok (joinSep "|" ((pySplit ';' raw).map (fun v => (dictGet og.options v).getD v)))
        else
          match mapE (fun v => match dictGet og.options v with
                               | some n => .ok n
                               | none => .error .keyMappingFailed) (pySplit ';' raw) with
          | .ok vs => .ok (joinSep "|" vs)
          | .error e => .error e := by
  have hne : (pySplit ';' raw == [""]) = false :=
    beq_eq_false_iff_ne.mpr (pySplit_ne_single_empty h1)
  simp only [CastorDataPoint.interpret_optiongroup_helper, hog, hres, hne,
    Bool.false_eq_true, if_false]
  split_ifs <;> rfl

theorem dispatch_optiongroup (study : Study) (f : CastorField) (raw : String)
    (ht : (["checkbox", "dropdown", "radio"].contains f.field_type) = true) :
    CastorDataPoint.interpret study f raw
      = (CastorDataPoint.interpret_optiongroup study f raw).map
          (fun s => .c (.base (.str s))) := by
  have h3 : f.field_type = "checkbox" ∨ f.field_type = "dropdown" ∨ f.field_type = "radio" := by
    simpa using ht
  rcases h3 with h3 | h3 | h3 <;> simp [CastorDataPoint.interpret, h3]

/-- C4: for checkbox, dropdown and radio fields with a nonempty raw value not
containing "Missing", when the option group resolves and every `;`-token is a
key of it, the raw value is split on ";", tokens are mapped to display names
and joined with "|"; with options value 1 ↦ Yes, 2 ↦ No and raw value "1;2"
the result is "Yes|No". -/
theorem C4_optiongroup_join (study : Study) (nm tmpl gid raw : String)
    (og : OptionGroup) (h1 : raw ≠ "") (h2 : pyIn "Missing" raw = false)
    (hres : study.get_single_optiongroup gid = some og)
    (hall : ∀ v ∈ pySplit ';' raw, (dictGet og.options v).isSome) :
    (CastorDataPoint.interpret study ⟨nm, "checkbox", some gid, tmpl⟩ raw
        = .ok (.c (.base (.str (joinSep "|"
            ((pySplit ';' raw).map (fun v => (dictGet og.options v).getD v))))))
      ∧ CastorDataPoint.interpret study ⟨nm, "dropdown", some gid, tmpl⟩ raw
        = .ok (.c (.base (.str (joinSep "|"
            ((pySplit ';' raw).map (fun v => (dictGet og.options v).getD v))))))
      ∧ CastorDataPoint.interpret study ⟨nm, "radio", some gid, tmpl⟩ raw
        = .ok (.c (.base (.str (joinSep "|"
            ((pySplit ';' raw).map (fun v => (dictGet og.options v).getD v)))))))
    ∧ CastorDataPoint.interpret studyYN ⟨nm, "checkbox", some "OG1", tmpl⟩ "1;2"
        = .ok (.c (.base (.str "Yes|No"))) := by
  refine ⟨⟨?_, ?_, ?_⟩, rfl⟩
  · rw [dispatch_checkbox, interpret_optiongroup_real study _ h1 h2,
      interpret_optiongroup_helper_resolved study _ h1 rfl hres]
    split_ifs
    · rfl
    · rw [mapE_lookup_all_some og.options _ hall]; rfl
  · rw [dispatch_dropdown, interpret_optiongroup_real study _ h1 h2,
      interpret_optiongroup_helper_resolved study _ h1 rfl hres]
    split_ifs
    · rfl
    · rw [mapE_lookup_all_some og.options _ hall]; rfl
  · rw [dispatch_radio, interpret_optiongroup_real study _ h1 h2,
      interpret_optiongroup_helper_resolved study _ h1 rfl hres]
    split_ifs
    · rfl
    · rw [mapE_lookup_all_some og.options _ hall]; rfl

/-- Witness for C4 at the Yes/No option group and raw value "1;2". -/
theorem C4_optiongroup_join_witness :
    ("1;2" ≠ "" ∧ pyIn "Missing" "1;2" = false
      ∧ studyYN.get_single_optiongroup "OG1" = some ogYN
      ∧ ∀ v ∈ pySplit ';' "1;2", (dictGet ogYN.options v).isSome)
    ∧ CastorDataPoint.interpret studyYN ⟨"f", "checkbox", some "OG1", ""⟩ "1;2"
        = .ok (.c (.base (.str (joinSep "|" ((pySplit ';' "1;2").map
            (fun v => (dictGet ogYN.options v).getD v)))))) :=
  ⟨⟨by decide, by decide, rfl, by decide⟩,
    ((C4_optiongroup_join studyYN "f" "" "OG1" "1;2" ogYN
        (by decide) (by decide) rfl (by decide)).1).1⟩

/-- C5: during option-group interpretation of a nonempty, non-missing raw
value, an unresolvable option group (a missing id or a resolver miss) raises
the "Optiongroup not found" failure; a split token that is no key of the
resolved group raises the key-mapping failure when `pass_keyerrors` is false,
and passes through verbatim into the joined output when it is true. -/
theorem C5_optiongroup_failures (study : Study) (nm tmpl gid raw t : String)
    (ht : (["checkbox", "dropdown", "radio"].contains t) = true)
    (h1 : raw ≠ "") (h2 : pyIn "Missing" raw = false) :
    (study.get_single_optiongroup gid = none →
        CastorDataPoint.interpret study ⟨nm, t, some gid, tmpl⟩ raw
          = .error .optiongroupNotFound)
    ∧ (CastorDataPoint.interpret study ⟨nm, t, none, tmpl⟩ raw
          = .error .optiongroupNotFound)
    ∧ (∀ og, study.get_single_optiongroup gid = some og →
        study.pass_keyerrors = false →
        (∃ v ∈ pySplit ';' raw, dictGet og.options v = none) →
        CastorDataPoint.interpret study ⟨nm, t, some gid, tmpl⟩ raw
          = .error .keyMappingFailed)
    ∧ (∀ og, study.get_single_optiongroup gid = some og →
        study.pass_keyerrors = true →
        CastorDataPoint.interpret study ⟨nm, t, some gid, tmpl⟩ raw
          = .ok (.c (.base (.str (joinSep "|"
              ((pySplit ';' raw).map (fun v => (dictGet og.options v).getD v))))))) := by
  refine ⟨fun hres => ?_, ?_, fun og hres hpk hex => ?_, fun og hres hpk => ?_⟩
  · rw [dispatch_optiongroup study _ raw ht, interpret_optiongroup_real study _ h1 h2]
    rw [show CastorDataPoint.interpret_optiongroup_helper study ⟨nm, t, some gid, tmpl⟩ raw
        = .error .optiongroupNotFound by
      simp [CastorDataPoint.interpret_optiongroup_helper, hres]]
    rfl
  · rw [dispatch_optiongroup study _ raw ht, interpret_optiongroup_real study _ h1 h2]
    rw [show CastorDataPoint.interpret_optiongroup_helper study ⟨nm, t, none, tmpl⟩ raw
        = .error .optiongroupNotFound from rfl]
    rfl
  · rw [dispatch_optiongroup study _ raw ht, interpret_optiongroup_real study _ h1 h2,
      interpret_optiongroup_helper_resolved study _ h1 rfl hres]
    simp only [hpk, Bool.false_eq_true, if_false]
    rw [mapE_lookup_exists_none og.options _ hex]
    rfl
  · rw [dispatch_optiongroup study _ raw ht, interpret_optiongroup_real study _ h1 h2,
      interpret_optiongroup_helper_resolved study _ h1 rfl hres]
    simp only [hpk, if_true]
    rfl

/-- Witness for C5: with `study0` (which resolves no group) a checkbox raw
value "1" fails with the option-group failure. -/
theorem C5_optiongroup_failures_witness :
    ((["checkbox", "dropdown", "radio"].contains "checkbox") = true
      ∧ "1" ≠ "" ∧ pyIn "Missing" "1" = false
      ∧ study0.get_single_optiongroup "OGX" = none)
    ∧ CastorDataPoint.interpret study0 ⟨"f", "checkbox", some "OGX", ""⟩ "1"
        = .error .optiongroupNotFound :=
  ⟨⟨by decide, by decide, by decide, rfl⟩,
    (C5_optiongroup_failures study0 "f" "" "OGX" "1" "checkbox"
        (by decide) (by decide) (by decide)).1 rfl⟩

/-- C6 (evaluation at the failing input): numberdate splits on ";"; the
example "5;01-02-2020" with date format "%Y-%m-%d" yields [5.0, "2020-02-01"]
and an empty number sub-part becomes NaN in the number slot, but an empty
DATE sub-part does not become NaN in the date slot: the source replaces it by
`np.nan` and then calls `datetime.strptime(np.nan, "%d-%m-%Y")`, which raises
`TypeError` — so raw value "5;" raises instead of returning [5.0, NaN]. -/
theorem C6_numberdate_empty_date_typeerror :
    CastorDataPoint.interpret studyYMD ⟨"f", "numberdate", none, ""⟩ "5;01-02-2020"
        = .ok (.c (.pair (.float (mkRat 5 1)) (.str "2020-02-01")))
    ∧ CastorDataPoint.interpret studyYMD ⟨"f", "numberdate", none, ""⟩ ";01-02-2020"
        = .ok (.c (.pair .nan (.str "2020-02-01")))
    ∧ CastorDataPoint.interpret studyYMD ⟨"f", "numberdate", none, ""⟩ "5;"
        = .error .typeError :=
  ⟨rfl, rfl, rfl⟩

/-- C7: grid interpretation returns NaN when the raw value or the summary
template is empty; otherwise any failure anywhere in the reconstruction body
is discarded and the result is exactly the literal string "Error"; the
method never lets an exception escape. -/
theorem C7_grid_error_containment (study : Study) (f : CastorField) (raw : String) :
    ((raw = "" ∨ f.field_summary_template = "") →
        CastorDataPoint.interpret_grid study f raw = .ok (.c (.base .nan)))
    ∧ (∀ e, raw ≠ "" → f.field_summary_template ≠ "" →
        CastorDataPoint.interpret_grid_body study f raw = .error e →
        CastorDataPoint.interpret_grid study f raw = .ok (.c (.base (.str "Error"))))
    ∧ (∃ v, CastorDataPoint.interpret_grid study f raw = .ok v)
    ∧ (f.field_type = "grid" → ∃ v, CastorDataPoint.interpret study f raw = .ok v) := by
  have h3 : ∃ v, CastorDataPoint.interpret_grid study f raw = .ok v := by
    unfold CastorDataPoint.interpret_grid
    split
    · exact ⟨_, rfl⟩
    · cases CastorDataPoint.interpret_grid_body study f raw with
      | ok v => exact ⟨v, rfl⟩
      | error e => exact ⟨_, rfl⟩
  refine ⟨fun h => ?_, fun e h1 h2 hb => ?_, h3, fun hgt => ?_⟩
  · rcases h with rfl | h
    · rfl
    · simp [CastorDataPoint.interpret_grid, h]
  · have hb1 : (raw == "") = false := by simp [h1]
    have hb2 : (f.field_summary_template == "") = false := by simp [h2]
    simp [CastorDataPoint.interpret_grid, hb1, hb2, hb]
  · have hd : CastorDataPoint.interpret study f raw
        = CastorDataPoint.interpret_grid study f raw := by
      simp [CastorDataPoint.interpret, hgt]
    rw [hd]; exact h3

/-- A grid field whose template is the empty JSON object. -/
def gridField0 : CastorField := ⟨"g", "grid", none, "\x7b\x7d"⟩

/-- Witness for C7: a non-JSON raw value makes the body fail (the caught
`JSONDecodeError` leaves `grid_rows` unbound, raising `NameError`), and the
method returns the literal "Error". -/
theorem C7_grid_error_containment_witness :
    (("x" : String) ≠ "" ∧ gridField0.field_summary_template ≠ ""
      ∧ CastorDataPoint.interpret_grid_body study0 gridField0 "x" = .error .nameError)
    ∧ CastorDataPoint.interpret_grid study0 gridField0 "x" = .ok (.c (.base (.str "Error"))) :=
  ⟨⟨by decide, by decide, rfl⟩,
    (C7_grid_error_containment study0 gridField0 "x").2.1 .nameError
      (by decide) (by decide) rfl⟩

/-! ## Method/free-function agreement (C9). -/

theorem method_free_time : @CastorDataPoint.interpret_time = @interpret_time := rfl

theorem method_free_datetime : @CastorDataPoint.interpret_datetime = @interpret_datetime := rfl

theorem method_free_date : @CastorDataPoint.interpret_date = @interpret_date := rfl

theorem method_free_numeric : @CastorDataPoint.interpret_numeric = @interpret_numeric := rfl

theorem method_free_year : @CastorDataPoint.interpret_year = @interpret_year := rfl

theorem method_free_numberdate :
    @CastorDataPoint.interpret_numberdate = @interpret_numberdate := rfl

theorem method_free_optiongroup_helper :
    @CastorDataPoint.interpret_optiongroup_helper = @interpret_optiongroup_helper := rfl

theorem method_free_optiongroup :
    @CastorDataPoint.interpret_optiongroup = @interpret_optiongroup := by
  funext study f raw
  simp only [CastorDataPoint.interpret_optiongroup, interpret_optiongroup,
    method_free_optiongroup_helper]

/-- C9 (amended): for every field type tag other than "grid" and every raw
value, the method dispatch `__interpret` and the free function `interpret`
return the same result; the free function has no grid branch, so grid fields
are excluded. -/
theorem C9_method_free_dispatch_agree (study : Study) (f : CastorField) (raw : String)
    (h : f.field_type ≠ "grid") :
    CastorDataPoint.interpret study f raw = (interpret study f raw).map Value.c := by
  unfold CastorDataPoint.interpret interpret
  rw [method_free_optiongroup, method_free_numeric, method_free_year, method_free_datetime,
    method_free_date, method_free_time, method_free_numberdate]
  split_ifs with h1 h2 h3 h4 h5 h6 h7 h8 h9
  · cases interpret_optiongroup study f raw <;> rfl
  · cases interpret_numeric raw <;> rfl
  · cases interpret_year raw <;> rfl
  · rfl
  · cases interpret_datetime study.configuration.datetime raw <;> rfl
  · cases interpret_date study.configuration.date raw <;> rfl
  · cases interpret_time study.configuration.time raw <;> rfl
  · cases interpret_numberdate study.configuration.date raw <;> rfl
  · exact absurd (by simpa using h9) h
  · rfl

/-- Witness for C9 at a numeric field and raw value "3.14". -/
theorem C9_method_free_dispatch_agree_witness :
    ((⟨"f", "numeric", none, ""⟩ : CastorField).field_type ≠ "grid")
    ∧ CastorDataPoint.interpret study0 ⟨"f", "numeric", none, ""⟩ "3.14"
        = (interpret study0 ⟨"f", "numeric", none, ""⟩ "3.14").map Value.c :=
  ⟨by decide,
    C9_method_free_dispatch_agree study0 ⟨"f", "numeric", none, ""⟩ "3.14" (by decide)⟩

/-- C9 counterexample: for a grid field the method dispatch interprets the
grid (the empty raw value gives NaN) while the free function, which has no
grid branch, falls to its final else and returns the literal "Error". -/
theorem C9_counterexample :
    CastorDataPoint.interpret study0 ⟨"g", "grid", none, ""⟩ ""
      ≠ (interpret study0 ⟨"g", "grid", none, ""⟩ "").map Value.c := by
  intro h
  have h1 : (Except.ok (Value.c (CellVal.base BVal.nan)) : Except PyError Value)
      = Except.ok (Value.c (CellVal.base (BVal.str "Error"))) := h
  injection h1 with h2
  injection h2 with h3
  injection h3 with h4
  injection h4

/-! ## Grid orientation and per-column interpretation (C8). -/

theorem mapE_get? {α β : Type} (f : α → Except PyError β) (l : List α) (l' : List β)
    (h : mapE f l = .ok l') (i : Nat) (x : α) (y : β)
    (hx : l.get? i = some x) (hy : l'.get? i = some y) : f x = .ok y := by
  induction l generalizing i l' with
  | nil => cases hx
  | cons a as ih =>
    simp only [mapE] at h
    cases hfa : f a with
    | error e => rw [hfa] at h; cases h
    | ok b =>
      rw [hfa] at h
      cases hrest : mapE f as with
      | error e => rw [hrest] at h; cases h
      | ok bs =>
        rw [hrest] at h
        injection h with h'
        subst h'
        cases i with
        | zero =>
          simp only [List.get?] at hx hy
          injection hx with hx'
          injection hy with hy'
          subst hx'; subst hy'
          exact hfa
        | succ m =>
          simp only [List.get?] at hx hy
          exact ih bs hrest m hx hy

/-- C8 (amended): the orientation logic of grid reconstruction, as the code
implements it.  A non-square table is kept when its width already equals the
number of declared field types and transposed otherwise — so the chosen
orientation's width equals `len(fieldTypes)` whenever one of the two
dimensions matches it, but not in general; a square table is transposed when
all column-name labels share the same first whitespace-delimited token and
kept when instead all row-name labels do; and each output column is
interpreted cell by cell through the free dispatch with the field type and
option-group id at that column's index. -/
theorem C8_grid_orientation (tmpl : JValue) (df : List (List Cell))
    (ftv rnv cnv : JValue) (n : Nat)
    (hft : jGet tmpl "fieldTypes" = .ok ftv)
    (hrn : jGet tmpl "rowNames" = .ok rnv)
    (hcn : jGet tmpl "columnNames" = .ok cnv)
    (hn : jLen ftv = .ok n) :
    (df.length ≠ dfWidth df → n = dfWidth df →
        orientGrid tmpl df = .ok (df, some (rnv, cnv)))
    ∧ (df.length ≠ dfWidth df → n ≠ dfWidth df →
        orientGrid tmpl df = .ok (transposeCells df, some (cnv, rnv))
        ∧ (transposeCells df).length = dfWidth df
        ∧ ∀ row ∈ transposeCells df, row.length = df.length)
    ∧ (∀ colCheck rowCheck, df.length = dfWidth df →
        firstTokList cnv = .ok colCheck → allSameHead colCheck = true →
        firstTokList rnv = .ok rowCheck →
        orientGrid tmpl df = .ok (transposeCells df, some (cnv, rnv)))
    ∧ (∀ colCheck rowCheck, df.length = dfWidth df →
        firstTokList cnv = .ok colCheck → allSameHead colCheck = false →
        firstTokList rnv = .ok rowCheck → allSameHead rowCheck = true →
        orientGrid tmpl df = .ok (df, some (rnv, cnv)))
    ∧ (∀ study name cols colsI i colRaw colI ftj olv olj,
        jGet tmpl "optionLists" = .ok olv →
        interpretCols study name tmpl cols = .ok colsI →
        cols.get? i = some colRaw → colsI.get? i = some colI →
        jIndex ftv i = .ok ftj → jIndex olv i = .ok olj →
        mapE (interpretCell study
          { field_name := name ++ " - grid object"
            field_type := jToTypeTag ftj
            field_option_group := jToOptGroup olj
            field_summary_template := "" }) colRaw = .ok colI) := by
  refine ⟨fun hne hw => ?_, fun hne hw => ⟨?_, ?_, ?_⟩,
    fun colCheck rowCheck hsq hck hall hrk => ?_,
    fun colCheck rowCheck hsq hck hnall hrk hall => ?_,
    fun study name cols colsI i colRaw colI ftj olv olj holv hcols hcr hci hix hox => ?_⟩
  · have hb : (df.length != dfWidth df) = true := bne_iff_ne.mpr hne
    have hw' : (n == dfWidth df) = true := beq_iff_eq.mpr hw
    simp only [orientGrid, hb, if_true, hft, hn, hw', hrn, hcn]
  · have hb : (df.length != dfWidth df) = true := bne_iff_ne.mpr hne
    have hw' : (n == dfWidth df) = false := beq_eq_false_iff_ne.mpr hw
    simp only [orientGrid, hb, if_true, hft, hn, hw', Bool.false_eq_true, if_false, hcn, hrn]
  · simp [transposeCells]
  · intro row hrow
    rcases List.mem_map.mp hrow with ⟨j, hj, rfl⟩
    exact List.length_map df _
  · have hb : (df.length != dfWidth df) = false := by simp [hsq]
    simp only [orientGrid, hb, Bool.false_eq_true, if_false, hcn, hck, hrn, hrk, hall, if_true]
  · have hb2 : (df.length != dfWidth df) = false := by simp [hsq]
    simp only [orientGrid, hb2, Bool.false_eq_true, if_false, hcn, hck, hnall, hrn, hrk, hall,
      if_true, if_false]
  · have henum : cols.enum.get? i = some (i, colRaw) := by
      rw [List.get?_enum, hcr]; rfl
    have happ := mapE_get? _ cols.enum colsI hcols i (i, colRaw) colI henum hci
    simpa only [hft, hix, holv, hox] using happ

/-- The parsed grid template of the witness: three numeric field types. -/
def tmplAJ : JValue := .obj
  [("fieldTypes", .arr [.str "numeric", .str "numeric", .str "numeric"]),
   ("optionLists", .arr [.null, .null, .null]),
   ("rowNames", .arr [.str "c1", .str "c2", .str "c3"]),
   ("columnNames", .arr [.str "r1", .str "r2"])]

/-- The raw 3x2 grid table of the witness. -/
def dfA : List (List Cell) :=
  [[.str "1", .str "2"], [.str "3", .str "4"], [.str "5", .str "6"]]

/-- Witness for C8: a 3x2 table whose template declares 3 field types is
transposed so the output columns align with the field types. -/
theorem C8_grid_orientation_witness :
    (dfA.length ≠ dfWidth dfA ∧ (3 : Nat) ≠ dfWidth dfA)
    ∧ orientGrid tmplAJ dfA
        = .ok (transposeCells dfA,
            some (.arr [.str "r1", .str "r2"], .arr [.str "c1", .str "c2", .str "c3"])) :=
  ⟨⟨by decide, by decide⟩,
    ((C8_grid_orientation tmplAJ dfA (.arr [.str "numeric", .str "numeric", .str "numeric"])
        (.arr [.str "c1", .str "c2", .str "c3"]) (.arr [.str "r1", .str "r2"]) 3
        rfl rfl rfl rfl).2.1 (by decide) (by decide)).1⟩

/-- A grid template declaring five field types, with labels for a transposed
2x1 raw table. -/
def tmpl8str : String :=
  "\x7b\"fieldTypes\": [\"numeric\",\"numeric\",\"numeric\",\"numeric\",\"numeric\"], \"optionLists\": [null,null,null,null,null], \"rowNames\": [\"a\",\"b\"], \"columnNames\": [\"x\"]\x7d"

/-- A raw grid value parsing to a 2x1 table. -/
def raw8str : String := "\x7b\"r0\": [\"1\"], \"r1\": [\"2\"]\x7d"

/-- The parsed form of `tmpl8str`. -/
def tmpl8J : JValue := .obj
  [("fieldTypes", .arr [.str "numeric", .str "numeric", .str "numeric", .str "numeric",
      .str "numeric"]),
   ("optionLists", .arr [.null, .null, .null, .null, .null]),
   ("rowNames", .arr [.str "a", .str "b"]),
   ("columnNames", .arr [.str "x"])]

set_option maxRecDepth 16384

/-- C8 counterexample: grid reconstruction succeeds with a 2-column table
although the template declares 5 field types — when neither dimension of a
non-square table matches `len(fieldTypes)` the code transposes anyway, so
the oriented column count does not equal the length of the fieldTypes
list. -/
theorem C8_counterexample :
    CastorDataPoint.interpret_grid study0 ⟨"g", "grid", none, tmpl8str⟩ raw8str
        = .ok (.table [[.base (.float (mkRat 1 1))], [.base (.float (mkRat 2 1))]]
            ["a", "b"] ["x"])
    ∧ ([[CellVal.base (.float (mkRat 1 1))], [CellVal.base (.float (mkRat 2 1))]]
        : List (List CellVal)).length = 2
    ∧ json_loads tmpl8str = .ok tmpl8J
    ∧ jGet tmpl8J "fieldTypes" = .ok (.arr [.str "numeric", .str "numeric", .str "numeric",
        .str "numeric", .str "numeric"])
    ∧ jLen (.arr [.str "numeric", .str "numeric", .str "numeric", .str "numeric",
        .str "numeric"]) = .ok 5
    ∧ (2 : Nat) ≠ 5 :=
  ⟨rfl, rfl, rfl, rfl, rfl, by decide⟩
